import Mathlib

/-!
Verification development for the House of Consequences governance core:
a shallow embedding of `src/governance/audit/rules.py` and
`src/governance/api/main.py` (entry construction, canonical JSON hashing,
the red-line policy gate, the audit-chain state and its verifier), together
with theorems settling the specification's claims against the code.
-/

namespace HoC

/-! ## String utilities (Python `in`, `lower`, substring containment) -/

/-- Does the character list `s` start with `p`? -/
def startsWithL : List Char → List Char → Bool
  | [], _ => true
  | _ :: _, [] => false
  | a :: ps, b :: ss => a == b && startsWithL ps ss

/-- Does `p` occur as a contiguous sublist of `s`?  (Python `p in s`.) -/
def subAt : List Char → List Char → Bool
  | p, [] => p.isEmpty
  | p, c :: rest => startsWithL p (c :: rest) || subAt p rest

/-- Python `pat in hay` on strings. -/
def hasSub (hay pat : String) : Bool := subAt pat.data hay.data

/-- Lower-case hexadecimal digit for a nibble. -/
def nib (n : Nat) : Char :=
  if n < 10 then Char.ofNat (48 + n) else Char.ofNat (87 + n)

/-- UTF-8 encoding of a single character, as byte values. -/
def utf8Bytes (c : Char) : List Nat :=
  let n := c.toNat
  if n < 128 then [n]
  else if n < 2048 then [192 + n / 64, 128 + n % 64]
  else if n < 65536 then [224 + n / 4096, 128 + (n / 64) % 64, 128 + n % 64]
  else [240 + n / 262144, 128 + (n / 4096) % 64, 128 + (n / 64) % 64, 128 + n % 64]

/-- UTF-8 bytes of a string (Python `s.encode("utf-8")`). -/
def strBytes (s : String) : List Nat := s.data.flatMap utf8Bytes

/-! ## SHA-256 (FIPS 180-4), over byte lists, words as `Nat` mod 2^32 -/

/-- 32-bit right rotation. -/
def rotr (n x : Nat) : Nat := ((x >>> n) ||| (x <<< (32 - n))) % 4294967296

/-- The SHA-256 round constants (FIPS 180-4 §4.2.2, written in decimal). -/
def SHA_K : List Nat :=
  [1116352408, 1899447441, 3049323471, 3921009573, 961987163,
   1508970993, 2453635748, 2870763221, 3624381080, 310598401,
   607225278, 1426881987, 1925078388, 2162078206, 2614888103,
   3248222580, 3835390401, 4022224774, 264347078, 604807628,
   770255983, 1249150122, 1555081692, 1996064986, 2554220882,
   2821834349, 2952996808, 3210313671, 3336571891, 3584528711,
   113926993, 338241895, 666307205, 773529912, 1294757372,
   1396182291, 1695183700, 1986661051, 2177026350, 2456956037,
   2730485921, 2820302411, 3259730800, 3345764771, 3516065817,
   3600352804, 4094571909, 275423344, 430227734, 506948616,
   659060556, 883997877, 958139571, 1322822218, 1537002063,
   1747873779, 1955562222, 2024104815, 2227730452, 2361852424,
   2428436474, 2756734187, 3204031479, 3329325298]

/-- The eight-word SHA-256 working state. -/
structure Sha8 where
  a : Nat
  b : Nat
  c : Nat
  d : Nat
  e : Nat
  f : Nat
  g : Nat
  h : Nat

/-- Initial SHA-256 hash value (FIPS 180-4 §5.3.3, written in decimal). -/
def shaInit : Sha8 :=
  ⟨1779033703, 3144134277, 1013904242, 2773480762,
   1359893119, 2600822924, 528734635, 1541459225⟩

/-- One SHA-256 compression round. -/
def shaRound (st : Sha8) (k w : Nat) : Sha8 :=
  let s1 := (rotr 6 st.e) ^^^ (rotr 11 st.e) ^^^ (rotr 25 st.e)
  let ch := (st.e &&& st.f) ^^^ ((st.e ^^^ 4294967295) &&& st.g)
  let t1 := (st.h + s1 + ch + k + w) % 4294967296
  let s0 := (rotr 2 st.a) ^^^ (rotr 13 st.a) ^^^ (rotr 22 st.a)
  let mj := (st.a &&& st.b) ^^^ (st.a &&& st.c) ^^^ (st.b &&& st.c)
  let t2 := (s0 + mj) % 4294967296
  ⟨(t1 + t2) % 4294967296, st.a, st.b, st.c, (st.d + t1) % 4294967296, st.e, st.f, st.g⟩

/-- One message-schedule extension step: `ws` holds the already-produced
words most recent first, so `w[t-2] = ws[1]`, `w[t-7] = ws[6]`,
`w[t-15] = ws[14]`, `w[t-16] = ws[15]`. -/
def schedStep (ws : List Nat) : Nat :=
  let g := fun i => ws.getD i 0
  let s1 := (rotr 17 (g 1)) ^^^ (rotr 19 (g 1)) ^^^ ((g 1) >>> 10)
  let s0 := (rotr 7 (g 14)) ^^^ (rotr 18 (g 14)) ^^^ ((g 14) >>> 3)
  (s1 + g 6 + s0 + g 15) % 4294967296

/-- Produce `n` further schedule words onto the reversed accumulator. -/
def schedExtend : Nat → List Nat → List Nat
  | 0, ws => ws
  | n + 1, ws => schedExtend n (schedStep ws :: ws)

/-- Full 64-word message schedule from a 16-word block. -/
def msgSchedule (w16 : List Nat) : List Nat :=
  (schedExtend 48 w16.reverse).reverse

/-- Compress one 16-word block into the state. -/
def shaCompress (st : Sha8) (w16 : List Nat) : Sha8 :=
  let fin := (List.zip SHA_K (msgSchedule w16)).foldl
    (fun s kw => shaRound s kw.1 kw.2) st
  ⟨(st.a + fin.a) % 4294967296, (st.b + fin.b) % 4294967296,
   (st.c + fin.c) % 4294967296, (st.d + fin.d) % 4294967296,
   (st.e + fin.e) % 4294967296, (st.f + fin.f) % 4294967296,
   (st.g + fin.g) % 4294967296, (st.h + fin.h) % 4294967296⟩

/-- Big-endian 8-byte encoding of a (64-bit) length value. -/
def lenBytes8 (n : Nat) : List Nat :=
  [(n >>> 56) % 256, (n >>> 48) % 256, (n >>> 40) % 256, (n >>> 32) % 256,
   (n >>> 24) % 256, (n >>> 16) % 256, (n >>> 8) % 256, n % 256]

/-- SHA-256 padding: append `0x80`, zeros to 56 mod 64, then the bit length. -/
def padMsg (bytes : List Nat) : List Nat :=
  let len := bytes.length
  bytes ++ [128] ++ List.replicate ((119 - (len % 64)) % 64) 0 ++ lenBytes8 (len * 8)

/-- Split a byte list into 64-byte chunks (fueled, structurally total). -/
def chunksGo : Nat → List Nat → List (List Nat)
  | 0, _ => []
  | _, [] => []
  | n + 1, bs => bs.take 64 :: chunksGo n (bs.drop 64)

/-- 64-byte chunks of a (padded) byte list. -/
def toChunks (bs : List Nat) : List (List Nat) := chunksGo (bs.length / 64 + 1) bs

/-- Big-endian 32-bit words of a 64-byte chunk. -/
def wordsOf : List Nat → List Nat
  | b1 :: b2 :: b3 :: b4 :: rest =>
      (b1 * 16777216 + b2 * 65536 + b3 * 256 + b4) :: wordsOf rest
  | _ => []

/-- SHA-256 digest (as the eight-word final state) of a byte list. -/
def sha256digest (bytes : List Nat) : Sha8 :=
  (toChunks (padMsg bytes)).foldl (fun st ch => shaCompress st (wordsOf ch)) shaInit

/-- The eight hex characters of a 32-bit word, most significant nibble first. -/
def wordHexChars (w : Nat) : List Char :=
  [nib ((w >>> 28) % 16), nib ((w >>> 24) % 16), nib ((w >>> 20) % 16),
   nib ((w >>> 16) % 16), nib ((w >>> 12) % 16), nib ((w >>> 8) % 16),
   nib ((w >>> 4) % 16), nib (w % 16)]

/-- Lower-case hex digest of a byte list (Python `hashlib.sha256(_).hexdigest()`). -/
def sha256hex (bytes : List Nat) : String :=
  let d := sha256digest bytes
  String.mk (wordHexChars d.a ++ wordHexChars d.b ++ wordHexChars d.c ++
    wordHexChars d.d ++ wordHexChars d.e ++ wordHexChars d.f ++
    wordHexChars d.g ++ wordHexChars d.h)

/-- Hex digest of a string's UTF-8 bytes. -/
def sha256hexStr (s : String) : String := sha256hex (strBytes s)

/-! ## Python values: the dictionaries the audit code manipulates -/

/-- A Python/JSON value as the audit code uses them: strings, ints, bools,
`None`, lists, and insertion-ordered dicts with string keys. -/
inductive PyVal where
  | str (s : String)
  | int (n : Nat)
  | bool (b : Bool)
  | null
  | list (xs : List PyVal)
  | dict (fields : List (String × PyVal))

/-- Python `d.get(k)` on a dict (`none` = key absent or not a dict). -/
def pyGet1 (e : PyVal) (k : String) : Option PyVal :=
  match e with
  | .dict fs => List.lookup k fs
  | _ => Option.none

/-- Chained item access `e[k1][k2]...`; `none` models a raised
`KeyError`/`TypeError`. -/
def pyGet (e : PyVal) : List String → Option PyVal
  | [] => some e
  | k :: ks =>
    match pyGet1 e k with
    | some v => pyGet v ks
    | Option.none => Option.none

/-- Chained access that must land on a string. -/
def pyGetStr (e : PyVal) (ks : List String) : Option String :=
  match pyGet e ks with
  | some (.str s) => some s
  | _ => Option.none

/-- JSON escaping of one character as `json.dumps` performs it
(`ensure_ascii=False`: non-ASCII characters pass through). -/
def jsonEsc (c : Char) : String :=
  if c = '"' then "\\\""
  else if c = '\\' then "\\\\"
  else if c = '\n' then "\\n"
  else if c = '\t' then "\\t"
  else if c = '\r' then "\\r"
  else if c = '\x08' then "\\b"
  else if c = '\x0c' then "\\f"
  else if c.toNat < 32 then
    "\\u00" ++ String.mk [nib (c.toNat / 16), nib (c.toNat % 16)]
  else String.singleton c

/-- A JSON string literal for `s`. -/
def jsonQuote (s : String) : String :=
  "\"" ++ String.join (s.data.map jsonEsc) ++ "\""

/-- Lexicographic code-point comparison of character lists. -/
def charListLt : List Char → List Char → Bool
  | [], [] => false
  | [], _ :: _ => true
  | _ :: _, [] => false
  | a :: as, b :: bs =>
    if a.toNat < b.toNat then true
    else if b.toNat < a.toNat then false
    else charListLt as bs

/-- Key order used by `json.dumps(sort_keys=True)`: Python's string
comparison, i.e. lexicographic on code points. -/
def keyLt (a b : String) : Bool := charListLt a.data b.data

/-- Insert one field into a key-sorted field list. -/
def insortField (x : String × PyVal) : List (String × PyVal) → List (String × PyVal)
  | [] => [x]
  | y :: ys => if keyLt x.1 y.1 then x :: y :: ys else y :: insortField x ys

/-- Insertion sort of a field list by key. -/
def insortFields : List (String × PyVal) → List (String × PyVal)
  | [] => []
  | x :: xs => insortField x (insortFields xs)

/-- ASCII lower-casing of one character (the only case Python's `.lower()`
exercises on this system's identifiers). -/
def lowerChar (c : Char) : Char :=
  if 65 ≤ c.toNat && c.toNat ≤ 90 then Char.ofNat (c.toNat + 32) else c

/-- Python `s.lower()` on the ASCII strings this system handles. -/
def strLower (s : String) : String := String.mk (s.data.map lowerChar)

/-- Comma-joined concatenation. -/
def joinComma : List String → String
  | [] => ""
  | [x] => x
  | x :: y :: rest => x ++ "," ++ joinComma (y :: rest)

/-- `", "`-joined concatenation. -/
def joinCommaSp : List String → String
  | [] => ""
  | [x] => x
  | x :: y :: rest => x ++ ", " ++ joinCommaSp (y :: rest)

/-- Recursion-depth bound shared by the serializers, mirroring CPython's
default recursion limit; every value this system builds has depth below 5,
and Python itself raises `RecursionError` past its limit. -/
def pyDepthLimit : Nat := 1000

/-- Recursively sort every dict in a value by key (the effect of
`sort_keys=True` applied at serialization time).  The fuel argument only
bounds the recursion depth so that the function reduces structurally. -/
def sortPyF : Nat → PyVal → PyVal
  | 0, v => v
  | n + 1, .dict fs => .dict (insortFields (fs.map (fun kv => (kv.1, sortPyF n kv.2))))
  | n + 1, .list xs => .list (xs.map (sortPyF n))
  | _ + 1, v => v

/-- Sort all dicts of a value by key. -/
def sortPy (v : PyVal) : PyVal := sortPyF pyDepthLimit v

/-- Serialize a (key-sorted) value with `separators=(",", ":")`; fueled as
in `sortPyF`. -/
def emitPyF : Nat → PyVal → String
  | 0, _ => ""
  | _ + 1, .str s => jsonQuote s
  | _ + 1, .int n => toString n
  | _ + 1, .bool b => if b then "true" else "false"
  | _ + 1, .null => "null"
  | n + 1, .list xs => "[" ++ joinComma (xs.map (emitPyF n)) ++ "]"
  | n + 1, .dict fs =>
    "\x7b" ++ joinComma (fs.map (fun kv => jsonQuote kv.1 ++ ":" ++ emitPyF n kv.2)) ++ "\x7d"

/-- Serialize a (key-sorted) value with `separators=(",", ":")`. -/
def emitPy (v : PyVal) : String := emitPyF pyDepthLimit v

/-- `json.dumps(v, sort_keys=True, separators=(",", ":"), ensure_ascii=False)`. -/
def canonical (v : PyVal) : String := emitPy (sortPy v)

/-- Python `str(v)` as the policy gate applies it to `metadata`:
dict/list reprs with `', '` and `': '` separators, `'...'`-quoted strings
(simple contents, no escaping needed for the values in this system),
`True`/`False`/`None`; fueled as in `sortPyF`. -/
def pyReprF : Nat → PyVal → String
  | 0, _ => ""
  | _ + 1, .str s => "'" ++ s ++ "'"
  | _ + 1, .int n => toString n
  | _ + 1, .bool b => if b then "True" else "False"
  | _ + 1, .null => "None"
  | n + 1, .list xs => "[" ++ joinCommaSp (xs.map (pyReprF n)) ++ "]"
  | n + 1, .dict fs =>
    "\x7b" ++ joinCommaSp (fs.map (fun kv => "'" ++ kv.1 ++ "': " ++ pyReprF n kv.2)) ++ "\x7d"

/-- Python `str(v)`. -/
def pyRepr (v : PyVal) : String := pyReprF pyDepthLimit v

/-! ## `src/governance/audit/rules.py` -/

/-- GOVERNANCE_MODEL.md §1.2 red lines, keyed by rule number. -/
def RED_LINES : List (Nat × String) :=
  [(1, "No features enabling surveillance, repression, or population profiling"),
   (2, "No exclusive access agreements with states or corporations"),
   (3, "No closed or proprietary forks of the core protocol"),
   (4, "No suppression, distortion, or hiding of core analytical outputs"),
   (5, "No opaque or non-auditable AI/ML models"),
   (6, "No centralized control over data, logic, or governance"),
   (7, "No integration that enables discrimination, coercion, or manipulation")]

/-- The forbidden action identifiers, in source order (grouped in the source
as §1.2.1 surveillance, §1.2.2 exclusive access, §1.2.3 closed forks,
§1.2.4 output suppression, §1.2.5 opaque models, §1.2.6 centralization,
§1.2.7 discrimination/coercion). -/
def FORBIDDEN_ACTIONS : List String :=
  ["enable_surveillance", "population_profiling", "track_users", "behavior_analysis",
   "exclusive_license", "state_monopoly", "corporate_lockin",
   "proprietary_fork", "closed_source", "license_restrict",
   "suppress_audit", "hide_evidence", "distort_analysis",
   "black_box_model", "proprietary_ai", "undocumented_ml",
   "centralize_control", "single_point_failure", "kill_switch",
   "discriminate", "coerce_civic_process", "manipulate_vote"]

/-- Surveillance-indicative metadata substrings. -/
def SURVEILLANCE_PATTERNS : List String :=
  ["user_tracking", "personal_data_retention", "profiling", "behavior_score"]

/-- `entry.copy(); entry_copy.pop("hash", None)`: remove the top-level
`"hash"` key (and only that key) before canonicalization. -/
def popHash (e : PyVal) : PyVal :=
  match e with
  | .dict fs => .dict (fs.filter (fun kv => kv.1 ≠ "hash"))
  | x => x

/-- The byte string hashed by `hash_entry`: the canonical JSON of the entry
after `popHash`, followed by the UTF-8 bytes of `previous_hash`. -/
def hashInput (e : PyVal) (previous_hash : String) : List Nat :=
  strBytes (canonical (popHash e)) ++ strBytes previous_hash

/-- `hash_entry(entry, previous_hash)`: SHA-256 over canonical JSON plus the
previous hash. -/
def hash_entry (e : PyVal) (previous_hash : String) : String :=
  sha256hex (hashInput e previous_hash)

/-- Modelled from the spec: the JSON schema files (`schemas/audit.log.schema.json`
and companions) referenced by `validate_schema` are not part of `src/`, so the
structural check they encode is unavailable.  Per §4.2 the Schema Gate
validates required fields and types of the candidate entry at the point the
code invokes it — the submitted candidate shape: an `actor` object carrying
string `id` and `role`, a string `action`, a string `target`, and an object
`metadata`. -/
def validate_schema (d : PyVal) : Bool :=
  match d with
  | .dict _ =>
    (match pyGet d ["actor", "id"] with | some (.str _) => true | _ => false) &&
    (match pyGet d ["actor", "role"] with | some (.str _) => true | _ => false) &&
    (match pyGet1 d "action" with | some (.str _) => true | _ => false) &&
    (match pyGet1 d "target" with | some (.str _) => true | _ => false) &&
    (match pyGet1 d "metadata" with | some (.dict _) => true | _ => false)
  | _ => false

/-- Text of red line `idx` (`RED_LINES[idx]`; the index is always 1..4 at the
call site, so the default is never used). -/
def redLineText (idx : Nat) : String := (List.lookup idx RED_LINES).getD ""

/-- The violation string emitted for a forbidden action `s`:
`idx = FORBIDDEN_ACTIONS.index(action) // 7 + 1`. -/
def forbiddenActionViolation (s : String) : String :=
  let idx := (FORBIDDEN_ACTIONS.findIdx (fun x => x == s)) / 7 + 1
  "RED_LINE_VIOLATION_" ++ toString idx ++ ": " ++ redLineText idx

/-- Check 1 of `validate_red_lines`: `action = entry.get("action", "")`,
flagged iff `action in FORBIDDEN_ACTIONS`.  Python list membership compares
with `==`, and a non-string value never equals any of the string members. -/
def actionViolations (e : PyVal) : List String :=
  match (pyGet1 e "action").getD (PyVal.str "") with
  | .str s => if FORBIDDEN_ACTIONS.contains s then [forbiddenActionViolation s] else []
  | _ => []

/-- Check 2 of `validate_red_lines`: scan `str(entry.get("metadata", {})).lower()`
for each surveillance pattern, emitting one violation per matching pattern. -/
def surveillanceViolations (e : PyVal) : List String :=
  let md := strLower (pyRepr ((pyGet1 e "metadata").getD (PyVal.dict [])))
  (SURVEILLANCE_PATTERNS.filter (fun p => hasSub md p)).map
    (fun _ => "RED_LINE_VIOLATION_1: surveillance pattern detected")

/-- Check 3 of `validate_red_lines`: constitutional schema compliance. -/
def schemaViolations (e : PyVal) : List String :=
  if validate_schema e then [] else ["CONSTITUTIONAL_VIOLATION: schema non-compliance"]

/-- Check 4 of `validate_red_lines`: `entry.get("actor", {}).get("role")`
against the over-privileged role names. -/
def roleViolations (e : PyVal) : List String :=
  match pyGet ((pyGet1 e "actor").getD (PyVal.dict [])) ["role"] with
  | some (.str r) =>
    if ["SuperAdmin", "GodMode", "Root"].contains r then
      ["RED_LINE_VIOLATION_6: centralized control attempt"]
    else []
  | _ => []

/-- `validate_red_lines(entry)`: the four checks run in order, all collected. -/
def validate_red_lines (e : PyVal) : List String :=
  actionViolations e ++ surveillanceViolations e ++ schemaViolations e ++ roleViolations e

/-- The entry dict as `create_audit_entry` builds it before the
self-referential hash is attached: `integrity` has no `hash` key yet and
`chain_position` is `0`.  `uuid.uuid4()` and `datetime.utcnow().isoformat()+"Z"`
are runtime-supplied; they are modelled as the explicit arguments
`eventId` and `timestamp`. -/
def preEntry (actor_id role action target : String)
    (metadata : List (String × PyVal)) (previous_hash eventId timestamp : String) : PyVal :=
  .dict [
    ("event_id", .str eventId),
    ("timestamp", .str timestamp),
    ("actor", .dict [
      ("actor_id", .str actor_id),
      ("actor_type", .str (if hasSub actor_id "@" then "human" else "system")),
      ("authentication_method", .str "session"),
      ("role", .str role),
      ("organization", (List.lookup "organization" metadata).getD (.str "HoC Core"))]),
    ("action", .dict [
      ("type", .str (if hasSub (strLower action) "create" then "create" else "update")),
      ("operation", .str action),
      ("status", .str "pending")]),
    ("object", .dict [
      ("object_type", .str "audit_entry"),
      ("object_id", .str target),
      ("object_hash", .str (sha256hexStr target))]),
    ("context", .dict [
      ("decision_id", (List.lookup "decision_id" metadata).getD (.str "N/A")),
      ("lifecycle_stage", .str "learning"),
      ("jurisdiction", .str "FI")]),
    ("integrity", .dict [
      ("previous_hash", .str previous_hash),
      ("hash_algorithm", .str "SHA-256"),
      ("chain_position", .int 0)]),
    ("legal_status", .dict [
      ("evidentiary_class", .str "administrative"),
      ("retention_policy", .str "P30Y"),
      ("admissibility", .str "prima_facie")]),
    ("signature", .dict [
      ("signature_type", .str "none"),
      ("signed_at", .null),
      ("signer_id", .null)]),
    ("metadata", .dict metadata)]

/-- Replace the `integrity` field of an entry dict. -/
def withIntegrity (e : PyVal) (ig : PyVal) : PyVal :=
  match e with
  | .dict fs => .dict (fs.map (fun kv => if kv.1 = "integrity" then (kv.1, ig) else kv))
  | x => x

/-- `create_audit_entry`: build the entry, compute the self-referential hash
over it (at which point `chain_position` is still `0` and `integrity.hash`
absent), then set `integrity.hash` and overwrite `chain_position` with the
constant `1` (the source comment reads `# First entry`, and the
`# Updated by storage layer` update never happens). -/
def create_audit_entry (actor_id role action target : String)
    (metadata : List (String × PyVal)) (previous_hash eventId timestamp : String) : PyVal :=
  let pre := preEntry actor_id role action target metadata previous_hash eventId timestamp
  let h := hash_entry pre previous_hash
  withIntegrity pre (.dict [
    ("previous_hash", .str previous_hash),
    ("hash_algorithm", .str "SHA-256"),
    ("chain_position", .int 1),
    ("hash", .str h)])

/-- Does the stored `integrity.hash` value differ from the recomputed hash?
Python compares `expected_hash != entry["integrity"]["hash"]`; a non-string
stored value is always unequal to the computed string. -/
def hashMismatch (e : PyVal) (prev : String) (stored : PyVal) : Bool :=
  match stored with
  | .str s => !(hash_entry e prev == s)
  | _ => true

/-- One entry is policy-flagged when `validate_red_lines` is non-empty. -/
def policyHit (e : PyVal) : Bool := !(validate_red_lines e).isEmpty

/-- Number of policy-flagged entries in a chain. -/
def policyCount (chain : List PyVal) : Nat := chain.countP policyHit

/-- The loop body of `audit_chain_status`, expressed as the total of the
per-entry increments: each entry adds 1 if policy-flagged and 1 if its stored
hash mismatches the recomputation with the previous entry's *stored* hash
(`"GENESIS"` for the first).  `none` models the `KeyError`/`TypeError` the
Python loop raises when `entry["integrity"]["hash"]` is missing, or the
`AttributeError` when a non-string stored hash reaches `.encode()` in the
next iteration. -/
def statusFold : List PyVal → String → Option Nat
  | [], _ => some 0
  | e :: rest, prev =>
    let p : Nat := if policyHit e then 1 else 0
    match pyGet e ["integrity", "hash"] with
    | Option.none => Option.none
    | some stored =>
      let m : Nat := if hashMismatch e prev stored then 1 else 0
      match rest with
      | [] => some (p + m)
      | f :: rest' =>
        match stored with
        | .str s => (statusFold (f :: rest') s).map (fun t => p + m + t)
        | _ => Option.none

/-- The same walk counting only hash mismatches. -/
def mismatchFold : List PyVal → String → Option Nat
  | [], _ => some 0
  | e :: rest, prev =>
    match pyGet e ["integrity", "hash"] with
    | Option.none => Option.none
    | some stored =>
      let m : Nat := if hashMismatch e prev stored then 1 else 0
      match rest with
      | [] => some m
      | f :: rest' =>
        match stored with
        | .str s => (mismatchFold (f :: rest') s).map (fun t => m + t)
        | _ => Option.none

/-- The result dict `audit_chain_status` returns for a non-empty chain. -/
def statusDict (v n : Nat) : List (String × PyVal) :=
  [("valid", .bool (v == 0)),
   ("length", .int n),
   ("red_line_violations", .int v),
   ("tamper_detected", .bool (decide (0 < v)))]

/-- `audit_chain_status(chain)`: the empty chain short-circuits to
`{"valid": True, "length": 0}`; otherwise the walk from `"GENESIS"` counts
policy hits and hash mismatches into one `violations` counter. -/
def audit_chain_status (chain : List PyVal) : Option (List (String × PyVal)) :=
  if chain.isEmpty then
    some [("valid", .bool true), ("length", .int 0)]
  else
    (statusFold chain "GENESIS").map (fun v => statusDict v chain.length)

/-! ## `src/governance/api/main.py` -/

/-- `get_previous_hash()`: the last entry's stored `integrity.hash`, or
`"GENESIS"` on the empty chain.  `none` models the `KeyError` on a malformed
last entry (the value also must be a string to be `.encode()`-able later). -/
def get_previous_hash (chain : List PyVal) : Option String :=
  match chain.getLast? with
  | Option.none => some "GENESIS"
  | some e => pyGetStr e ["integrity", "hash"]

/-- Modelled from the spec: `governance.audit.signer` (imported by the API
for `generate_keypair`/`sign_bytes`) is not part of `src/`; per §1 and §9 the
signing backend is an external stub to be replaced by a qualified-signature
service, substituted in tests by a deterministic fake.  Modelled as a
deterministic placeholder over the hex string being signed. -/
def sign_bytes (s : String) : String := "sig:" ++ s

/-- `audit_entry["signature"]["signature_value"] = sign_bytes(PRIVATE_KEY,
audit_entry["integrity"]["hash"].encode()).hex()`: append the signature value
to the entry's `signature` dict. -/
def addSignature (e : PyVal) : PyVal :=
  let h := (pyGetStr e ["integrity", "hash"]).getD ""
  match e with
  | .dict fs => .dict (fs.map (fun kv =>
      match kv with
      | ("signature", .dict sf) =>
        ("signature", .dict (sf ++ [("signature_value", .str (sign_bytes h))]))
      | other => other))
  | x => x

/-- The `Actor` pydantic model of a request. -/
structure ActorReq where
  id : String
  role : String
  organization : Option String

/-- The `AuditEntryRequest` pydantic model. -/
structure AuditEntryRequest where
  actor : ActorReq
  action : String
  target : String
  metadata : List (String × PyVal)

/-- The `validate_action` pydantic validator on `AuditEntryRequest.action`:
raises (rejecting the request before the endpoint body runs) when the
lower-cased action contains any of the three hard-coded forbidden strings. -/
def requestBlocked (action : String) : Bool :=
  ["enable_surveillance", "closed_fork", "suppress_audit"].any
    (fun f => hasSub (strLower action) f)

/-- `entry_req.dict()`: the raw request dict handed to the schema and policy
gates (`organization` serializes as `None` when absent). -/
def reqDict (r : AuditEntryRequest) : PyVal :=
  .dict [
    ("actor", .dict [
      ("id", .str r.actor.id),
      ("role", .str r.actor.role),
      ("organization", match r.actor.organization with
        | some o => .str o
        | Option.none => .null)]),
    ("action", .str r.action),
    ("target", .str r.target),
    ("metadata", .dict r.metadata)]

/-- Outcome of one `POST /audit/entry` submission.
`validationError` is the pydantic 422 (request never reaches the endpoint);
`schemaRejected` is the recorded-then-400 schema branch; `policyCrash` is the
unhandled `TypeError` raised by `create_audit_entry(**raw_entry, ...)` — the
endpoint's policy-rejection branch passes `actor=...` where `create_audit_entry`
expects `actor_id=.../role=...`, so it raises before appending; `logged`
carries the endpoint's success response dict. -/
inductive SubmitResult where
  | validationError
  | schemaRejected
  | policyCrash
  | logged (resp : List (String × PyVal))

/-- The response dict of a logged entry, projected from a `SubmitResult`. -/
def respOf : SubmitResult → Option (List (String × PyVal))
  | .logged r => some r
  | _ => Option.none

/-- `log_audit_entry` (`POST /audit/entry`), including the pydantic request
validation that precedes it.  Returns the new chain and the outcome; `none`
models an uncaught `KeyError` from `get_previous_hash` on a malformed chain.
The jsonschema error text recorded by the schema branch comes from the
external jsonschema library and is modelled as a fixed placeholder. -/
def submit (chain : List PyVal) (r : AuditEntryRequest) (eventId timestamp : String) :
    Option (List PyVal × SubmitResult) :=
  if requestBlocked r.action then
    some (chain, .validationError)
  else
    let raw := reqDict r
    if !(validate_schema raw) then
      let e := create_audit_entry r.actor.id r.actor.role
        ("SCHEMA_VIOLATION_" ++ r.action) r.target
        [("error", .str "SCHEMA_ERROR")] "GENESIS" eventId timestamp
      some (chain ++ [e], .schemaRejected)
    else if !(validate_red_lines raw).isEmpty then
      some (chain, .policyCrash)
    else
      match get_previous_hash chain with
      | Option.none => Option.none
      | some prev =>
        let e := addSignature (create_audit_entry r.actor.id r.actor.role
          r.action r.target r.metadata prev eventId timestamp)
        some (chain ++ [e], .logged [
          ("status", .str "logged"),
          ("entry_id", (pyGet1 e "event_id").getD .null),
          ("chain_position", (pyGet e ["integrity", "chain_position"]).getD .null),
          ("chain_hash", (pyGet e ["integrity", "hash"]).getD .null)])

/-- The self-auditing entry appended by `generate_audit_report_endpoint`
(`POST /audit/report`): `create_audit_entry` is called without
`previous_hash`, so the Python default `"GENESIS"` applies regardless of the
chain's state. -/
def reportEntry (caseId reportId pdfPath eventId timestamp : String) : PyVal :=
  create_audit_entry "hoc-audit-system" "SystemAuditor" "generate_audit_report"
    caseId [("report_id", .str reportId), ("pdf_path", .str pdfPath)]
    "GENESIS" eventId timestamp

/-- The chain after the report endpoint's `AUDIT_CHAIN.append(audit_entry)`. -/
def reportAppend (chain : List PyVal) (caseId reportId pdfPath eventId timestamp : String) :
    List PyVal :=
  chain ++ [reportEntry caseId reportId pdfPath eventId timestamp]

/-! ## Concrete inputs used by the claims -/

/-- Scenario A's request: `{actor: {id: "u1", role: "admin"},
action: "enable_surveillance", target: "users", metadata: {}}`. -/
def reqA : AuditEntryRequest := ⟨⟨"u1", "admin", Option.none⟩, "enable_surveillance", "users", []⟩

/-- A well-formed, non-violating request (first of Scenario B's pair). -/
def req1 : AuditEntryRequest := ⟨⟨"alice@example.org", "member", Option.none⟩, "update_profile", "profile-1", []⟩

/-- A well-formed, non-violating request (second of Scenario B's pair). -/
def req2 : AuditEntryRequest := ⟨⟨"bob@example.org", "member", Option.none⟩, "update_record", "record-7", []⟩

/-- Scenario B, first submission against the empty chain. -/
def stepA : Option (List PyVal × SubmitResult) := submit [] req1 "evt-1" "2026-01-01T00:00:00Z"

/-- Scenario B, second submission against the chain left by `stepA`. -/
def stepB : Option (List PyVal × SubmitResult) :=
  stepA.bind (fun p => submit p.1 req2 "evt-2" "2026-01-01T00:00:01Z")

/-- A raw request dict whose action is `proprietary_fork` (red line 3 in the
rule catalogue). -/
def fork_req_dict : PyVal :=
  reqDict ⟨⟨"u1", "researcher", Option.none⟩, "proprietary_fork", "protocol", []⟩

/-- The same request with the action's case changed. -/
def fork_req_dict_upper : PyVal :=
  reqDict ⟨⟨"u1", "researcher", Option.none⟩, "PROPRIETARY_FORK", "protocol", []⟩

/-- A stored-entry-shaped dict whose `integrity.hash` is present. -/
def entryWithStoredHash : PyVal :=
  .dict [("action", .str "x"),
         ("integrity", .dict [("previous_hash", .str "GENESIS"), ("hash", .str "deadbeef")])]

/-- The same dict with the `integrity.hash` field absent. -/
def entryWithoutStoredHash : PyVal :=
  .dict [("action", .str "x"),
         ("integrity", .dict [("previous_hash", .str "GENESIS")])]

/-- A one-entry chain whose entry is policy-flagged (over-privileged role)
and carries a stored `integrity.hash`. -/
def chain9 : List PyVal :=
  [.dict [("actor", .dict [("role", .str "SuperAdmin")]),
          ("integrity", .dict [("hash", .str "deadbeef")])]]

/-- Does every entry of the chain carry a string `integrity.hash` (so the
verifier walk raises no exception)? -/
def chainHashesPresent (chain : List PyVal) : Bool :=
  chain.all (fun e =>
    match pyGet e ["integrity", "hash"] with
    | some (.str _) => true
    | _ => false)

/-! ## Claim theorems -/

/-- C1: the claim says every submitted candidate entry is appended to the
chain exactly once, and Scenario A's request in particular is recorded at
position 1 with outcome `rejected_policy`.  On the code, the pydantic
validator rejects the request before the endpoint body runs: the outcome is
a request-validation error and the chain is left unchanged — the entry is
never appended. -/
theorem c1_scenario_a_dropped :
    submit [] reqA "evt-a" "2026-01-01T00:00:00Z" = some ([], .validationError) := rfl

/-- C3: the claim says `hash_entry` hashes the entry with its
`integrity.hash` field removed.  The code removes only a top-level `"hash"`
key: on a stored entry (whose hash lives under `integrity`) the removal is a
no-op, and the hash input differs between the entry with `integrity.hash`
present and the same entry with it absent — the field being computed does
participate in its own input on every re-verification. -/
theorem c3_pop_misses_integrity_hash :
    popHash entryWithStoredHash = entryWithStoredHash ∧
    hashInput entryWithStoredHash "GENESIS" ≠ hashInput entryWithoutStoredHash "GENESIS" := by
  constructor
  · rfl
  · decide

/-- C7: the claim says a forbidden action is tagged with the rule number
that owns it (`proprietary_fork` → red line 3) after case-normalization and
substring matching.  The code matches by exact, case-sensitive list
membership and computes the rule number as `index // 7 + 1`, which tags
`proprietary_fork` (index 7, a §1.2.3 closed-forks action) with red line 2,
and misses the same action in different case entirely. -/
theorem c7_fork_tagged_rule_two :
    validate_red_lines fork_req_dict =
      ["RED_LINE_VIOLATION_2: No exclusive access agreements with states or corporations"] ∧
    validate_red_lines fork_req_dict_upper = [] := by
  constructor
  · rfl
  · rfl

/-- C2: the claim says the n-th appended entry's `integrity.chain_position`
is n (`len(chain)+1`).  The code hardcodes `chain_position = 1` in
`create_audit_entry` for every entry on every path, and no storage layer
updates it: in particular the second entry of Scenario B's run is reported
and stored at position 1. -/
theorem c2_chain_position_hardcoded :
    (∀ a r act t (m : List (String × PyVal)) p eid ts,
      pyGet (create_audit_entry a r act t m p eid ts) ["integrity", "chain_position"]
        = some (.int 1)) ∧
    stepB.bind (fun pr => pr.1[1]?.bind
      (fun e => pyGet e ["integrity", "chain_position"])) = some (.int 1) := by
  constructor
  · intro a r act t m p eid ts
    rfl
  · rfl

/-- Every hex digest produced by `sha256hex` has 64 characters. -/
theorem sha256hex_length (bs : List Nat) : (sha256hex bs).length = 64 := by
  simp [sha256hex, wordHexChars, String.length]

/-- C4: the claim says every append path preserves the chain linking
invariant.  The self-auditing entry appended by the report endpoint is built
without a `previous_hash` argument, so its `integrity.previous_hash` is the
default `"GENESIS"` whatever the chain holds, while the stored hash of every
built entry is a 64-character digest and hence never `"GENESIS"`: after one
accepted entry, the appended report entry does not point at it. -/
theorem c4_report_append_breaks_linking :
    (∀ caseId reportId pdfPath eid ts,
      pyGetStr (reportEntry caseId reportId pdfPath eid ts) ["integrity", "previous_hash"]
        = some "GENESIS") ∧
    (∀ a r act t (m : List (String × PyVal)) p eid ts,
      pyGetStr (create_audit_entry a r act t m p eid ts) ["integrity", "hash"]
        ≠ some "GENESIS") := by
  constructor
  · intro caseId reportId pdfPath eid ts
    rfl
  · intro a r act t m p eid ts h
    have hval : pyGetStr (create_audit_entry a r act t m p eid ts) ["integrity", "hash"]
        = some (hash_entry (preEntry a r act t m p eid ts) p) := rfl
    rw [hval] at h
    have h2 : hash_entry (preEntry a r act t m p eid ts) p = "GENESIS" :=
      Option.some.inj h
    have h3 := sha256hex_length (hashInput (preEntry a r act t m p eid ts) p)
    simp only [hash_entry] at h2
    rw [h2] at h3
    exact absurd h3 (by decide)

/-- C5: the claim says Scenario B yields positions 1 and 2 and a verifier
result `valid = true, checked = 2`.  On the code both submissions are
accepted and appended, but the second is also reported at position 1, and
the verifier result carries no `checked` key at all. -/
theorem c5_scenario_b_positions :
    stepA.map (fun p => (respOf p.2).isSome) = some true ∧
    stepB.map (fun p => (respOf p.2).isSome) = some true ∧
    stepB.map (fun p => p.1.length) = some 2 ∧
    (stepB.bind (fun p => respOf p.2)).bind (List.lookup "chain_position") = some (.int 1) ∧
    stepB.bind (fun p => (audit_chain_status p.1).map (List.lookup "checked"))
      = some Option.none :=
  ⟨rfl, rfl, rfl, rfl, rfl⟩

/-- C6: the claim says the verifier names the first broken position as
`first_break`.  The result dict of `audit_chain_status` never contains a
`first_break` key, on any chain whatsoever. -/
theorem c6_verifier_never_names_first_break (chain : List PyVal) :
    (audit_chain_status chain).bind (List.lookup "first_break") = Option.none := by
  cases chain with
  | nil => rfl
  | cons e rest =>
    show ((statusFold (e :: rest) "GENESIS").map
        (fun v => statusDict v (e :: rest).length)).bind
        (List.lookup "first_break") = Option.none
    cases statusFold (e :: rest) "GENESIS" with
    | none => rfl
    | some v => rfl

/-- C8: on every entry built by `create_audit_entry` the stored `action` is
a nested dict, while the gate's forbidden-action check compares the
top-level `action` value against a list of strings, so it never fires:
re-running `validate_red_lines` over a stored entry can only produce
surveillance, schema, or role violations. -/
theorem c8_gate_blind_to_stored_actions :
    ∀ a r act t (m : List (String × PyVal)) p eid ts,
      actionViolations (create_audit_entry a r act t m p eid ts) = [] ∧
      validate_red_lines (create_audit_entry a r act t m p eid ts) =
        surveillanceViolations (create_audit_entry a r act t m p eid ts) ++
        schemaViolations (create_audit_entry a r act t m p eid ts) ++
        roleViolations (create_audit_entry a r act t m p eid ts) := by
  intro a r act t m p eid ts
  have h1 : actionViolations (create_audit_entry a r act t m p eid ts) = [] := rfl
  exact ⟨h1, by simp [validate_red_lines, h1]⟩

/-- The verifier walk's counter decomposes into policy hits plus hash
mismatches. -/
theorem statusFold_decompose (chain : List PyVal) :
    ∀ prev, statusFold chain prev
      = (mismatchFold chain prev).map (fun t => policyCount chain + t) := by
  induction chain with
  | nil =>
    intro prev
    simp [statusFold, mismatchFold, policyCount]
  | cons e rest ih =>
    intro prev
    rw [statusFold.eq_2, mismatchFold.eq_2]
    cases hGet : pyGet e ["integrity", "hash"] with
    | none => simp [hGet]
    | some stored =>
      cases rest with
      | nil =>
        simp only [hGet, Option.map_some]
        simp only [policyCount, List.countP_cons, List.countP_nil]
        cases hp : policyHit e <;> cases hm : hashMismatch e prev stored <;> simp [hp, hm]
      | cons f rest' =>
        cases stored with
        | str s =>
          simp only [hGet]
          rw [ih s]
          cases hmf : mismatchFold (f :: rest') s with
          | none => simp
          | some t =>
            simp [policyCount, List.countP_cons]
            cases hp : policyHit e <;> simp [hp] <;> omega
        | int k => simp [hGet]
        | bool b => simp [hGet]
        | null => simp [hGet]
        | list xs => simp [hGet]
        | dict fs => simp [hGet]

/-- When every entry carries a string `integrity.hash`, the verifier walk
raises no exception. -/
theorem mismatchFold_isSome (chain : List PyVal) :
    ∀ prev, chainHashesPresent chain = true → ∃ t, mismatchFold chain prev = some t := by
  induction chain with
  | nil =>
    intro prev _
    exact ⟨0, rfl⟩
  | cons e rest ih =>
    intro prev h
    simp only [chainHashesPresent, List.all_cons, Bool.and_eq_true] at h
    obtain ⟨he, hrest⟩ := h
    rw [mismatchFold.eq_2]
    cases hGet : pyGet e ["integrity", "hash"] with
    | none => rw [hGet] at he; simp at he
    | some stored =>
      rw [hGet] at he
      cases stored with
      | str s =>
        cases rest with
        | nil =>
          simp only [hGet]
          exact ⟨_, rfl⟩
        | cons f rest' =>
          obtain ⟨t, ht⟩ := ih s (by simpa [chainHashesPresent] using hrest)
          simp only [hGet]
          rw [ht]
          exact ⟨_, rfl⟩
      | int k => simp at he
      | bool b => simp at he
      | null => simp at he
      | list xs => simp at he
      | dict fs => simp at he

/-- C9: for a non-empty chain the verifier result has
`tamper_detected = not valid`, its single `red_line_violations` counter is
the number of policy-flagged entries plus the number of hash mismatches,
and any chain with at least one policy-flagged entry — tampered or not — is
reported with `tamper_detected = true` and `valid = false`. -/
theorem c9_single_counter_merges_flags (chain : List PyVal) (h1 : chain ≠ [])
    (h2 : chainHashesPresent chain = true) :
    (∀ v n, List.lookup "tamper_detected" (statusDict v n) = some (.bool (!(v == 0))) ∧
            List.lookup "valid" (statusDict v n) = some (.bool (v == 0))) ∧
    ∃ m, mismatchFold chain "GENESIS" = some m ∧
      audit_chain_status chain = some (statusDict (policyCount chain + m) chain.length) ∧
      (0 < policyCount chain →
        (audit_chain_status chain).bind (List.lookup "tamper_detected") = some (.bool true) ∧
        (audit_chain_status chain).bind (List.lookup "valid") = some (.bool false)) := by
  have hshape : ∀ v n,
      List.lookup "tamper_detected" (statusDict v n) = some (.bool (!(v == 0))) ∧
      List.lookup "valid" (statusDict v n) = some (.bool (v == 0)) := by
    intro v n
    constructor
    · have hlk : List.lookup "tamper_detected" (statusDict v n)
          = some (.bool (decide (0 < v))) := rfl
      rw [hlk]
      congr 2
      cases v <;> simp
    · rfl
  refine ⟨hshape, ?_⟩
  obtain ⟨m, hm⟩ := mismatchFold_isSome chain "GENESIS" h2
  have hstatus : audit_chain_status chain
      = some (statusDict (policyCount chain + m) chain.length) := by
    cases chain with
    | nil => exact absurd rfl h1
    | cons e rest =>
      show (statusFold (e :: rest) "GENESIS").map
        (fun v => statusDict v (e :: rest).length) = _
      rw [statusFold_decompose, hm]
      rfl
  refine ⟨m, hm, hstatus, ?_⟩
  intro hp
  have hne : policyCount chain + m ≠ 0 := by omega
  rw [hstatus]
  constructor
  · simp only [Option.some_bind, (hshape _ _).1]
    simp [hne]
  · simp only [Option.some_bind, (hshape _ _).2]
    simp [hne]

/-- Witness for C9: a concrete one-entry chain whose entry is policy-flagged
(over-privileged role) but carries a stored hash, reported as tampered and
invalid. -/
theorem c9_single_counter_merges_flags_witness :
    chain9 ≠ [] ∧ chainHashesPresent chain9 = true ∧ 0 < policyCount chain9 ∧
    (audit_chain_status chain9).bind (List.lookup "tamper_detected") = some (.bool true) ∧
    (audit_chain_status chain9).bind (List.lookup "valid") = some (.bool false) := by
  have h1 : chain9 ≠ [] := List.cons_ne_nil _ _
  have h2 : chainHashesPresent chain9 = true := by decide
  have hp : 0 < policyCount chain9 := by decide
  obtain ⟨hshape, m, hm, hstatus, himp⟩ := c9_single_counter_merges_flags chain9 h1 h2
  obtain ⟨ht, hv⟩ := himp hp
  exact ⟨h1, h2, hp, ht, hv⟩

/-- C10: on the empty chain, `audit_chain_status` short-circuits to
`{"valid": True, "length": 0}` and `get_previous_hash` returns `"GENESIS"`. -/
theorem c10_empty_chain :
    audit_chain_status [] = some [("valid", .bool true), ("length", .int 0)] ∧
    (audit_chain_status []).bind (List.lookup "valid") = some (.bool true) ∧
    get_previous_hash [] = some "GENESIS" :=
  ⟨rfl, rfl, rfl⟩

end HoC

